import Mathlib

/-!
Shallow embedding of `src/demo.py` (altico-transcribe): a pipeline that
runs OCR on one image via a synchronous endpoint with an asynchronous
polling fallback, optionally cleans the text via a language-model call,
and writes the results to `<stem>.raw.txt` and `<stem>.clean.md`.

Remote responses are modelled as explicit data passed in by an
environment; HTTP success is a Boolean (`raise_for_status` maps a false
flag to an error); JSON `.get` lookups are `Option` fields, where `none`
covers both an absent key and a JSON null (the code treats them alike
through `or` defaults).  Python string `strip` and `lower` are modelled
by the explicit character-list functions `pyStrip` and `pyLower` below,
which agree with them on the ASCII payloads involved.
-/

namespace AlticoTranscribe

/-- Python `str.strip()`: drop leading and trailing whitespace characters. -/
def pyStrip (s : String) : String :=
  String.mk (((s.data.dropWhile Char.isWhitespace).reverse.dropWhile Char.isWhitespace).reverse)

/-- Python `str.lower()`: lower-case every character. -/
def pyLower (s : String) : String :=
  String.mk (s.data.map Char.toLower)

/-- One line of the Image Analysis 4.0 response, `block["lines"][k]`;
`text` is `line.get("text")`. -/
structure IALine where
  text : Option String
deriving DecidableEq

/-- One block of the Image Analysis 4.0 response, `readResult["blocks"][k]`;
`lines` models `block.get("lines", []) or []`, with `none` for an absent
or null list. -/
structure IABlock where
  lines : Option (List IALine)
deriving DecidableEq

/-- The `readResult` object of the synchronous response: an optional
consolidated `content` string and optional per-line `blocks`. -/
structure ReadResult where
  content : Option String
  blocks : Option (List IABlock)
deriving DecidableEq

/-- The HTTP response of the synchronous Image Analysis call. `ok` is
whether `raise_for_status` passes; `readResult` is `data.get("readResult")`,
with a falsy value collapsed to `none` as `or {}` does. -/
structure SyncResponse where
  ok : Bool
  readResult : Option ReadResult
deriving DecidableEq

/-- One line of a v3.2 poll result, `page["lines"][k]`. -/
structure PollLine where
  text : Option String
deriving DecidableEq

/-- One page of a v3.2 poll result, `analyzeResult["readResults"][k]`;
`lines` models `page.get("lines", []) or []`. -/
structure PollPage where
  lines : Option (List PollLine)
deriving DecidableEq

/-- The `analyzeResult` object of a v3.2 poll response. -/
structure AnalyzeResult where
  readResults : Option (List PollPage)
deriving DecidableEq

/-- One HTTP response of a GET on the Operation-Location URL. `ok` is
whether `raise_for_status` passes; `status` is `result.get("status")`
(`none` for absent or null); `analyzeResult` is `result.get("analyzeResult", {})`. -/
structure PollResponse where
  ok : Bool
  status : Option String
  analyzeResult : Option AnalyzeResult
deriving DecidableEq

/-- The HTTP response of the v3.2 submission POST. `operationLocation`
is `submit.headers.get("Operation-Location")`. -/
structure SubmitResponse where
  ok : Bool
  operationLocation : Option String
deriving DecidableEq

/-- The uncaught errors the pipeline can raise: `requests.HTTPError`
from `raise_for_status`, the two `RuntimeError`s and the `TimeoutError`
of `azure_read_v32`, and a failure of the cleanup call. -/
inductive Err where
  | httpError : Err
  | missingOperationLocation : Err
  | readFailed : PollResponse → Err
  | timedOut : Err
  | cleanupError : String → Err
deriving DecidableEq

/-- The truthy line texts across all blocks, in document order:
`for block in read_result.get("blocks", []) or []: for line in
block.get("lines", []) or []: if line.get("text"): append`. -/
def iaBlockTexts (blocks : List IABlock) : List String :=
  blocks.flatMap fun b =>
    (b.lines.getD []).filterMap fun l =>
      match l.text with
      | some t => if t = "" then none else some t
      | none => none

/-- `azure_read_imageanalysis`: raise on HTTP failure; return the stripped
`readResult["content"]` when that string is truthy, else the truthy line
texts joined with newlines and stripped. -/
def azure_read_imageanalysis (resp : SyncResponse) : Except Err String :=
  if resp.ok = false then .error .httpError
  else
    let rr := resp.readResult.getD ⟨none, none⟩
    let content := rr.content.getD ""
    if content = "" then
      .ok (pyStrip (String.intercalate "\n" (iaBlockTexts (rr.blocks.getD []))))
    else
      .ok (pyStrip content)

/-- Text extraction on a succeeded v3.2 poll: the truthy line texts across
all `analyzeResult["readResults"]` pages, joined with newlines and stripped. -/
def v32ExtractText (r : PollResponse) : String :=
  let analyze := r.analyzeResult.getD ⟨none⟩
  let texts := (analyze.readResults.getD []).flatMap fun page =>
    (page.lines.getD []).filterMap fun l =>
      match l.text with
      | some t => if t = "" then none else some t
      | none => none
  pyStrip (String.intercalate "\n" texts)

/-- The normalised poll status: `(result.get("status") or "").lower()`. -/
def pollStatus (r : PollResponse) : String :=
  pyLower (r.status.getD "")

/-- Outcome of a run of `azure_read_v32`: the returned text or raised
error, the number of GET polls issued, and the number of 0.5 time-unit
sleeps performed (one sleep precedes each poll). -/
structure V32Result where
  outcome : Except Err String
  polls : Nat
  sleeps : Nat

/-- The polling loop `for _ in range(60)` of `azure_read_v32`, with `i`
the number of polls (and sleeps) already performed and `fuel` the loop
iterations left.  Each iteration sleeps 0.5, issues one GET (`polls i` is
the response to the i-th GET), raises on HTTP failure, and dispatches on
the normalised status; falling off the loop raises `TimeoutError`. -/
def v32Loop (polls : Nat → PollResponse) : Nat → Nat → V32Result
  | i, 0 => ⟨.error .timedOut, i, i⟩
  | i, fuel + 1 =>
    let r := polls i
    if r.ok = false then ⟨.error .httpError, i + 1, i + 1⟩
    else if pollStatus r = "succeeded" then ⟨.ok (v32ExtractText r), i + 1, i + 1⟩
    else if pollStatus r = "failed" then ⟨.error (.readFailed r), i + 1, i + 1⟩
    else v32Loop polls (i + 1) fuel

/-- `azure_read_v32`: POST the image, raise on HTTP failure, raise on a
missing (absent or empty) Operation-Location header, else poll up to 60
times. -/
def azure_read_v32 (submit : SubmitResponse) (polls : Nat → PollResponse) : V32Result :=
  if submit.ok = false then ⟨.error .httpError, 0, 0⟩
  else if submit.operationLocation.getD "" = "" then
    ⟨.error .missingOperationLocation, 0, 0⟩
  else v32Loop polls 0 60

/-- The remote responses a single run can observe on the OCR side: the
synchronous analysis response, the v3.2 submission response, and the
sequence of poll responses (all for the same image bytes). -/
structure OcrEnv where
  sync : SyncResponse
  submit : SubmitResponse
  polls : Nat → PollResponse

/-- `azure_handwriting_ocr`: try the synchronous client; on
`requests.HTTPError`, or on a successful but empty result, fall back to
`azure_read_v32`.  The Boolean records whether the asynchronous client
was invoked on this run. -/
def azure_handwriting_ocr (env : OcrEnv) : Except Err String × Bool :=
  match azure_read_imageanalysis env.sync with
  | .ok t =>
    if t = "" then ((azure_read_v32 env.submit env.polls).outcome, true)
    else (.ok t, false)
  | .error .httpError => ((azure_read_v32 env.submit env.polls).outcome, true)
  | .error e => (.error e, false)

/-- The fixed instruction prompt of `openai_cleanup`, embedding the raw
OCR text. -/
def cleanupPrompt (raw_text : String) : String :=
  "You are cleaning OCR output from handwritten dance performance observation notebooks.\n" ++
  "Rules:\n" ++
  "- Preserve meaning; do not invent details.\n" ++
  "- Fix obvious OCR artifacts (broken words, random line breaks).\n" ++
  "- Keep original ordering.\n" ++
  "- Output as Markdown.\n" ++
  "- If a date is present, put it as a top-level heading.\n" ++
  "- Use bullets where appropriate.\n\n" ++
  "OCR TEXT:\n" ++ raw_text

/-- `openai_cleanup`: with no API key configured, return the input text
unchanged and make no remote call; otherwise make exactly one remote
completion call on the prompt and return its output text, stripped.
`remote` maps the prompt sent to the response text (or failure) of the
completion service; the second component counts remote calls made. -/
def openai_cleanup (apiKey : String) (remote : String → Except Err String)
    (raw_text : String) : Except Err String × Nat :=
  if apiKey = "" then (.ok raw_text, 0)
  else
    match remote (cleanupPrompt raw_text) with
    | .error e => (.error e, 1)
    | .ok t => (.ok (pyStrip t), 1)

/-- Everything a single run observes from the outside world: the OCR
responses, the configured cleanup API key (empty when unset), and the
cleanup completion service. -/
structure RunEnv where
  ocr : OcrEnv
  cleanupKey : String
  cleanupRemote : String → Except Err String

/-- Observable outcome of one run of `main`: the files written (name and
contents, in write order, including writes that happened before an
uncaught error), the number of remote cleanup calls made, and whether the
run finished or terminated with an uncaught error. -/
structure RunResult where
  files : List (String × String)
  cleanupRemoteCalls : Nat
  outcome : Except Err Unit

/-- `main` on an image with stem `stem`: run `azure_handwriting_ocr`,
write `<stem>.raw.txt`, stop there under `--no-clean`, otherwise run
`openai_cleanup` and write `<stem>.clean.md`.  An uncaught error aborts
the run at that point, keeping the files already written. -/
def main (stem : String) (noClean : Bool) (env : RunEnv) : RunResult :=
  match (azure_handwriting_ocr env.ocr).1 with
  | .error e => ⟨[], 0, .error e⟩
  | .ok raw_text =>
    let rawFile := (stem ++ ".raw.txt", raw_text)
    if noClean then ⟨[rawFile], 0, .ok ()⟩
    else
      match openai_cleanup env.cleanupKey env.cleanupRemote raw_text with
      | (.error e, n) => ⟨[rawFile], n, .error e⟩
      | (.ok cleaned, n) => ⟨[rawFile, (stem ++ ".clean.md", cleaned)], n, .ok ()⟩

/-! ## Helper lemmas -/

/-- A loop iteration whose GET succeeds with a non-terminal status
continues polling at the next index. -/
theorem v32Loop_step_continue (polls : Nat → PollResponse) (i fuel : Nat)
    (hok : (polls i).ok = true) (hs : pollStatus (polls i) ≠ "succeeded")
    (hf : pollStatus (polls i) ≠ "failed") :
    v32Loop polls i (fuel + 1) = v32Loop polls (i + 1) fuel := by
  simp [v32Loop, hok, hs, hf]

/-- A loop iteration whose GET succeeds with normalised status
`"succeeded"` terminates with the extracted text. -/
theorem v32Loop_step_succeeded (polls : Nat → PollResponse) (i fuel : Nat)
    (hok : (polls i).ok = true) (hs : pollStatus (polls i) = "succeeded") :
    v32Loop polls i (fuel + 1) = ⟨.ok (v32ExtractText (polls i)), i + 1, i + 1⟩ := by
  simp [v32Loop, hok, hs]

/-- When every remaining poll succeeds at the HTTP level with a
non-terminal status, the loop spends all its fuel and times out. -/
theorem v32Loop_timeout (polls : Nat → PollResponse) (fuel i : Nat)
    (h : ∀ j, i ≤ j → j < i + fuel → (polls j).ok = true ∧
      pollStatus (polls j) ≠ "succeeded" ∧ pollStatus (polls j) ≠ "failed") :
    v32Loop polls i fuel = ⟨.error .timedOut, i + fuel, i + fuel⟩ := by
  induction fuel generalizing i with
  | zero => simp [v32Loop]
  | succ fuel ih =>
    obtain ⟨hok, hs, hf⟩ := h i (Nat.le_refl i) (by omega)
    rw [v32Loop_step_continue polls i fuel hok hs hf,
      ih (i + 1) (fun j hj1 hj2 => h j (by omega) (by omega))]
    have e : i + 1 + fuel = i + (fuel + 1) := by omega
    rw [e]

/-- The two output file names of one run differ (their suffixes have
different lengths). -/
theorem clean_ne_raw (stem : String) : stem ++ ".clean.md" ≠ stem ++ ".raw.txt" := by
  intro h
  have hl := congrArg String.length h
  rw [String.length_append, String.length_append] at hl
  have h9 : (".clean.md" : String).length = 9 := rfl
  have h8 : (".raw.txt" : String).length = 8 := rfl
  omega

/-! ## Claim C1 -/

/-- Run environment exhibiting a cleanup failure after successful OCR:
the synchronous OCR response carries the text "hello", the cleanup
credential is set, and the remote cleanup call fails. -/
def envC1 : RunEnv :=
  ⟨⟨⟨true, some ⟨some "hello", none⟩⟩, ⟨true, none⟩, fun _ => ⟨true, none, none⟩⟩,
   "key", fun _ => .error (.cleanupError "boom")⟩

/-- Claim C1, counterexample: a run that terminates with an uncaught
error — here the remote cleanup call fails after OCR succeeded — has
nevertheless written `page.raw.txt`, so it is not the case that a run
ending in an uncaught error writes no output file. -/
theorem C1_cleanup_failure_still_writes_raw :
    (main "page" false envC1).outcome = .error (.cleanupError "boom") ∧
    (main "page" false envC1).files.map Prod.fst = ["page.raw.txt"] :=
  ⟨rfl, rfl⟩

/-- Claim C1 (amended): a run that terminates with an uncaught error
never writes `<stem>.clean.md`, and its files are determined by where
the error arose: when the error precedes or arises in OCR (the OCR
orchestrator itself errors) no output file is written at all, and when
OCR succeeded with text `t` (so the uncaught error came from the later
cleanup call) the already-written `<stem>.raw.txt` with content `t` is
exactly what remains. -/
theorem C1_failed_run_output_files (stem : String) (noClean : Bool) (env : RunEnv) (e : Err)
    (h : (main stem noClean env).outcome = .error e) :
    (stem ++ ".clean.md") ∉ (main stem noClean env).files.map Prod.fst ∧
    (main stem noClean env).files =
      (match (azure_handwriting_ocr env.ocr).1 with
       | .error _ => []
       | .ok t => [(stem ++ ".raw.txt", t)]) := by
  cases hocr : (azure_handwriting_ocr env.ocr).1 with
  | error er => simp [main, hocr]
  | ok t =>
    cases noClean with
    | true => simp [main, hocr] at h
    | false =>
      cases hcl : openai_cleanup env.cleanupKey env.cleanupRemote t with
      | mk res n =>
        cases res with
        | error ec =>
          refine ⟨?_, ?_⟩
          · simp [main, hocr, hcl]
            exact clean_ne_raw stem
          · simp [main, hocr, hcl]
        | ok cl => simp [main, hocr, hcl] at h

/-- Run environment whose OCR fails outright: the synchronous call and
the asynchronous submission both fail at the HTTP level, so the run
terminates with an uncaught error before any file is written. -/
def envC1w : RunEnv :=
  ⟨⟨⟨false, none⟩, ⟨false, none⟩, fun _ => ⟨true, none, none⟩⟩, "key",
   fun _ => .error (.cleanupError "boom")⟩

/-- Claim C1, witness for the amended statement at an OCR-stage failure:
the run errors and, OCR having errored, the file list is empty. -/
theorem C1_failed_run_output_files_witness :
    ("page" ++ ".clean.md") ∉ (main "page" false envC1w).files.map Prod.fst ∧
    (main "page" false envC1w).files =
      (match (azure_handwriting_ocr envC1w.ocr).1 with
       | .error _ => []
       | .ok t => [("page" ++ ".raw.txt", t)]) :=
  C1_failed_run_output_files "page" false envC1w .httpError rfl

/-! ## Claim C2 -/

/-- OCR environment whose synchronous response has the non-empty but
all-whitespace consolidated content `" "`; the async submission lacks an
Operation-Location header, which makes the fallback outcome recognisable. -/
def envC2 : OcrEnv :=
  ⟨⟨true, some ⟨some " ", none⟩⟩, ⟨true, none⟩, fun _ => ⟨true, none, none⟩⟩

/-- Claim C2, counterexample: the consolidated content `" "` is a
non-empty string, yet the orchestrator does invoke the asynchronous
client (the stripped content is empty, which the fallback treats as a
soft failure), and its result is the async outcome rather than the
trimmed content. -/
theorem C2_whitespace_content_falls_back :
    envC2.sync.readResult = some ⟨some " ", none⟩ ∧ (" " : String) ≠ "" ∧
    azure_handwriting_ocr envC2 = (.error .missingOperationLocation, true) :=
  ⟨rfl, by decide, rfl⟩

/-- Claim C2 (amended): when the synchronous response carries a
consolidated content field that is non-empty after stripping leading and
trailing whitespace, the orchestrator returns exactly that stripped field
and the asynchronous client is never invoked. -/
theorem C2_trimmed_nonempty_content (env : OcrEnv) (rr : ReadResult) (c : String)
    (hok : env.sync.ok = true) (hrr : env.sync.readResult = some rr)
    (hc : rr.content = some c) (hs : pyStrip c ≠ "") :
    azure_handwriting_ocr env = (.ok (pyStrip c), false) := by
  have hcne : c ≠ "" := by
    intro h0
    apply hs
    rw [h0]
    rfl
  simp [azure_handwriting_ocr, azure_read_imageanalysis, hok, hrr, hc, hcne, hs]

/-- OCR environment whose synchronous response has consolidated content
`" hi "`, non-empty after stripping. -/
def envC2w : OcrEnv :=
  ⟨⟨true, some ⟨some " hi ", none⟩⟩, ⟨true, none⟩, fun _ => ⟨true, none, none⟩⟩

/-- Claim C2, witness for the amended statement. -/
theorem C2_trimmed_nonempty_content_witness :
    pyStrip " hi " ≠ "" ∧ azure_handwriting_ocr envC2w = (.ok (pyStrip " hi "), false) :=
  ⟨by decide,
   C2_trimmed_nonempty_content envC2w ⟨some " hi ", none⟩ " hi " rfl rfl rfl (by decide)⟩

/-! ## Claim C3 -/

/-- Claim C3: when the submission succeeds and yields a poll location,
and every poll response up to the 60th succeeds at the HTTP level with a
non-terminal normalised status, the asynchronous client performs exactly
60 polls — one per loop iteration, each preceded by one 0.5 time-unit
sleep, so 60 sleeps in total — and then fails with the timeout error. -/
theorem C3_timeout_after_sixty_polls (submit : SubmitResponse) (polls : Nat → PollResponse)
    (hok : submit.ok = true) (hloc : submit.operationLocation.getD "" ≠ "")
    (hpolls : ∀ i, i < 60 → (polls i).ok = true ∧
      pollStatus (polls i) ≠ "succeeded" ∧ pollStatus (polls i) ≠ "failed") :
    azure_read_v32 submit polls = ⟨.error .timedOut, 60, 60⟩ := by
  simp [azure_read_v32, hok, hloc]
  have h := v32Loop_timeout polls 60 0 (fun j _ hj => hpolls j (by omega))
  simpa using h

/-- A poll-response sequence that always reports status `"running"`. -/
def pollsC3 : Nat → PollResponse := fun _ => ⟨true, some "running", none⟩

/-- Claim C3, witness: with the always-running sequence the client times
out after exactly 60 polls and 60 sleeps. -/
theorem C3_timeout_after_sixty_polls_witness :
    azure_read_v32 ⟨true, some "https://poll"⟩ pollsC3 = ⟨.error .timedOut, 60, 60⟩ :=
  C3_timeout_after_sixty_polls ⟨true, some "https://poll"⟩ pollsC3 rfl (by decide)
    (fun i _ => by
      refine ⟨rfl, ?_, ?_⟩
      · show pollStatus ⟨true, some "running", none⟩ ≠ "succeeded"
        decide
      · show pollStatus ⟨true, some "running", none⟩ ≠ "failed"
        decide)

/-! ## Claim C4 -/

/-- Claim C4: when the synchronous client raises an HTTP error or
returns the empty string, the orchestrator invokes the asynchronous
client and its final outcome — returned text or raised error — is
exactly the asynchronous outcome for the same image. -/
theorem C4_fallback_equals_async (env : OcrEnv)
    (h : azure_read_imageanalysis env.sync = .error .httpError ∨
      azure_read_imageanalysis env.sync = .ok "") :
    azure_handwriting_ocr env = ((azure_read_v32 env.submit env.polls).outcome, true) := by
  rcases h with h | h <;> simp [azure_handwriting_ocr, h]

/-- OCR environment whose synchronous call fails at the HTTP level and
whose asynchronous run times out on running statuses. -/
def envC4 : OcrEnv :=
  ⟨⟨false, none⟩, ⟨true, some "https://poll"⟩, fun _ => ⟨true, some "running", none⟩⟩

/-- Claim C4, witness: with a failing synchronous call the orchestrator
outcome is the asynchronous outcome. -/
theorem C4_fallback_equals_async_witness :
    azure_handwriting_ocr envC4 = ((azure_read_v32 envC4.submit envC4.polls).outcome, true) :=
  C4_fallback_equals_async envC4 (Or.inl rfl)

/-! ## Claim C5 -/

/-- OCR environment whose synchronous response has no consolidated
content and a single block with the single line text `" a"`. -/
def envC5 : OcrEnv :=
  ⟨⟨true, some ⟨none, some [⟨some [⟨some " a"⟩]⟩]⟩⟩, ⟨true, none⟩, fun _ => ⟨true, none, none⟩⟩

/-- Claim C5, counterexample: the recognised line texts are `[" a"]`, so
joining them by newlines gives `" a"`, but the orchestrator returns the
stripped string `"a"` — the code strips the joined text, so the output
does not always equal the plain newline-join of the line texts. -/
theorem C5_output_is_not_plain_join :
    envC5.sync.readResult = some ⟨none, some [⟨some [⟨some " a"⟩]⟩]⟩ ∧
    iaBlockTexts [⟨some [⟨some " a"⟩]⟩] = [" a"] ∧
    (azure_handwriting_ocr envC5).1 = .ok "a" ∧
    ("a" : String) ≠ String.intercalate "\n" [" a"] :=
  ⟨rfl, rfl, rfl, by decide⟩

/-- Claim C5 (amended): when the synchronous response has no consolidated
content field, the orchestrator output equals the non-empty line texts
joined by newlines in block order and then stripped of leading and
trailing whitespace, provided that stripped join is non-empty (an empty
join instead triggers the asynchronous fallback). -/
theorem C5_lines_joined_then_stripped (env : OcrEnv) (rr : ReadResult)
    (hok : env.sync.ok = true) (hrr : env.sync.readResult = some rr)
    (hc : rr.content = none)
    (hne : pyStrip (String.intercalate "\n" (iaBlockTexts (rr.blocks.getD []))) ≠ "") :
    azure_handwriting_ocr env =
      (.ok (pyStrip (String.intercalate "\n" (iaBlockTexts (rr.blocks.getD [])))), false) := by
  simp [azure_handwriting_ocr, azure_read_imageanalysis, hok, hrr, hc, hne]

/-- OCR environment whose synchronous response carries only per-line
blocks, with clean texts `"a"` and `"b"`. -/
def envC5w : OcrEnv :=
  ⟨⟨true, some ⟨none, some [⟨some [⟨some "a"⟩, ⟨some "b"⟩]⟩]⟩⟩, ⟨true, none⟩,
   fun _ => ⟨true, none, none⟩⟩

/-- Claim C5, witness for the amended statement. -/
theorem C5_lines_joined_then_stripped_witness :
    pyStrip (String.intercalate "\n" (iaBlockTexts [⟨some [⟨some "a"⟩, ⟨some "b"⟩]⟩])) ≠ "" ∧
    azure_handwriting_ocr envC5w =
      (.ok (pyStrip (String.intercalate "\n" (iaBlockTexts [⟨some [⟨some "a"⟩, ⟨some "b"⟩]⟩]))),
       false) :=
  ⟨by decide,
   C5_lines_joined_then_stripped envC5w ⟨none, some [⟨some [⟨some "a"⟩, ⟨some "b"⟩]⟩]⟩
     rfl rfl rfl (by decide)⟩

/-! ## Claim C6 -/

/-- Claim C6: when the submission succeeds but carries no
Operation-Location header, the asynchronous client fails with the
missing-Operation-Location error having performed zero polls (and zero
sleeps). -/
theorem C6_missing_operation_location (submit : SubmitResponse) (polls : Nat → PollResponse)
    (hok : submit.ok = true) (hloc : submit.operationLocation = none) :
    azure_read_v32 submit polls = ⟨.error .missingOperationLocation, 0, 0⟩ := by
  simp [azure_read_v32, hok, hloc]

/-- Claim C6, witness at a submission response with no header. -/
theorem C6_missing_operation_location_witness :
    azure_read_v32 ⟨true, none⟩ (fun _ => ⟨true, some "running", none⟩) =
      ⟨.error .missingOperationLocation, 0, 0⟩ :=
  C6_missing_operation_location ⟨true, none⟩ (fun _ => ⟨true, some "running", none⟩) rfl rfl

/-! ## Claim C7 -/

/-- A poll-response sequence with statuses running, running, succeeded,
whose final response carries the single line text `" a"`. -/
def pollsC7 : Nat → PollResponse := fun i =>
  if i < 2 then ⟨true, some "running", none⟩
  else ⟨true, some "succeeded", some ⟨some [⟨some [⟨some " a"⟩]⟩]⟩⟩

/-- Claim C7, counterexample: on statuses running, running, succeeded the
client does poll exactly three times, but, the recognised line texts of
the final response being `[" a"]`, it returns the stripped string `"a"`
rather than their plain newline-join `" a"`. -/
theorem C7_final_join_is_stripped :
    pollsC7 2 = ⟨true, some "succeeded", some ⟨some [⟨some [⟨some " a"⟩]⟩]⟩⟩ ∧
    azure_read_v32 ⟨true, some "https://poll"⟩ pollsC7 = ⟨.ok "a", 3, 3⟩ ∧
    ("a" : String) ≠ String.intercalate "\n" [" a"] :=
  ⟨rfl, rfl, by decide⟩

/-- Claim C7 (amended): on a successful submission with a poll location,
and poll responses whose normalised statuses are running, running,
succeeded, the client performs exactly two non-terminal polls followed by
one terminal poll — three polls and three sleeps in total — and returns
the non-empty recognised line texts of the final response joined by
newlines and stripped of leading and trailing whitespace, which is
`v32ExtractText` of that response. -/
theorem C7_two_running_then_succeeded (submit : SubmitResponse) (polls : Nat → PollResponse)
    (hok : submit.ok = true) (hloc : submit.operationLocation.getD "" ≠ "")
    (h0 : (polls 0).ok = true) (hs0 : pollStatus (polls 0) = "running")
    (h1 : (polls 1).ok = true) (hs1 : pollStatus (polls 1) = "running")
    (h2 : (polls 2).ok = true) (hs2 : pollStatus (polls 2) = "succeeded") :
    azure_read_v32 submit polls = ⟨.ok (v32ExtractText (polls 2)), 3, 3⟩ := by
  simp only [azure_read_v32, hok, hloc]
  simp only [Bool.true_eq_false, if_false, if_neg hloc]
  show v32Loop polls 0 (59 + 1) = _
  rw [v32Loop_step_continue polls 0 59 h0 (by rw [hs0]; decide) (by rw [hs0]; decide)]
  show v32Loop polls 1 (58 + 1) = _
  rw [v32Loop_step_continue polls 1 58 h1 (by rw [hs1]; decide) (by rw [hs1]; decide)]
  show v32Loop polls 2 (57 + 1) = _
  rw [v32Loop_step_succeeded polls 2 57 h2 hs2]

/-- A clean poll-response sequence with statuses running, running,
succeeded and final line texts `"a"` and `"b"`. -/
def pollsC7w : Nat → PollResponse := fun i =>
  if i < 2 then ⟨true, some "running", none⟩
  else ⟨true, some "succeeded", some ⟨some [⟨some [⟨some "a"⟩, ⟨some "b"⟩]⟩]⟩⟩

/-- Claim C7, witness for the amended statement. -/
theorem C7_two_running_then_succeeded_witness :
    azure_read_v32 ⟨true, some "https://poll"⟩ pollsC7w = ⟨.ok (v32ExtractText (pollsC7w 2)), 3, 3⟩ :=
  C7_two_running_then_succeeded ⟨true, some "https://poll"⟩ pollsC7w rfl (by decide)
    rfl rfl rfl rfl rfl rfl

/-! ## Claim C8 -/

/-- Claim C8: with no cleanup credential configured the cleanup client
returns its input unchanged with zero remote calls, and a full run whose
OCR returned `t` writes `<stem>.raw.txt` and `<stem>.clean.md` with the
identical text `t`, making zero remote cleanup calls. -/
theorem C8_no_key_cleanup_identity (env : RunEnv) (stem t x : String)
    (remote : String → Except Err String)
    (hkey : env.cleanupKey = "") (hocr : (azure_handwriting_ocr env.ocr).1 = .ok t) :
    openai_cleanup "" remote x = (.ok x, 0) ∧
    main stem false env = ⟨[(stem ++ ".raw.txt", t), (stem ++ ".clean.md", t)], 0, .ok ()⟩ := by
  constructor
  · simp [openai_cleanup]
  · simp [main, hocr, openai_cleanup, hkey]

/-- Run environment with no cleanup credential; the synchronous OCR
response carries the text "hello". -/
def envC8 : RunEnv :=
  ⟨⟨⟨true, some ⟨some "hello", none⟩⟩, ⟨true, none⟩, fun _ => ⟨true, none, none⟩⟩,
   "", fun _ => .error (.cleanupError "never")⟩

/-- Claim C8, witness: with the empty key both files carry the identical
text and no remote cleanup call is made. -/
theorem C8_no_key_cleanup_identity_witness :
    openai_cleanup "" envC8.cleanupRemote "x" = (.ok "x", 0) ∧
    main "page" false envC8 =
      ⟨[("page" ++ ".raw.txt", "hello"), ("page" ++ ".clean.md", "hello")], 0, .ok ()⟩ :=
  C8_no_key_cleanup_identity envC8 "page" "hello" "x" envC8.cleanupRemote rfl rfl

/-! ## Claim C9 -/

/-- Claim C9: a run invoked with the no-clean flag whose OCR returned `t`
creates exactly one file, `<stem>.raw.txt` with content `t`; no
`<stem>.clean.md` is written and zero remote cleanup calls are made. -/
theorem C9_no_clean_writes_only_raw (env : RunEnv) (stem t : String)
    (hocr : (azure_handwriting_ocr env.ocr).1 = .ok t) :
    main stem true env = ⟨[(stem ++ ".raw.txt", t)], 0, .ok ()⟩ := by
  simp [main, hocr]

/-- Run environment with a configured cleanup credential and a failing
remote cleanup service, so that any cleanup call would be observable. -/
def envC9 : RunEnv :=
  ⟨⟨⟨true, some ⟨some "hello", none⟩⟩, ⟨true, none⟩, fun _ => ⟨true, none, none⟩⟩,
   "key", fun _ => .error (.cleanupError "boom")⟩

/-- Claim C9, witness: under the no-clean flag only the raw file is
written with zero cleanup calls, even though a credential is configured
and the cleanup service would fail. -/
theorem C9_no_clean_writes_only_raw_witness :
    main "page" true envC9 = ⟨[("page" ++ ".raw.txt", "hello")], 0, .ok ()⟩ :=
  C9_no_clean_writes_only_raw envC9 "page" "hello" rfl

/-! ## Claim C10 -/

/-- Claim C10: after an HTTP-successful poll, the loop compares the
status case-insensitively — a literal status `"Succeeded"` is a terminal
success returning the extracted text — and a missing (or null) status
field is non-terminal: the loop continues at the next poll instead of
erroring. -/
theorem C10_status_case_and_missing (polls : Nat → PollResponse) (i fuel : Nat)
    (hok : (polls i).ok = true) :
    ((polls i).status = some "Succeeded" →
      v32Loop polls i (fuel + 1) = ⟨.ok (v32ExtractText (polls i)), i + 1, i + 1⟩) ∧
    ((polls i).status = none → v32Loop polls i (fuel + 1) = v32Loop polls (i + 1) fuel) := by
  constructor
  · intro hs
    refine v32Loop_step_succeeded polls i fuel hok ?_
    unfold pollStatus
    rw [hs]
    rfl
  · intro hs
    refine v32Loop_step_continue polls i fuel hok ?_ ?_ <;>
      · unfold pollStatus
        rw [hs]
        decide

/-- A poll-response sequence with the capitalised status `"Succeeded"`. -/
def pollsC10 : Nat → PollResponse := fun _ => ⟨true, some "Succeeded", none⟩

/-- Claim C10, witness at the capitalised-status sequence. -/
theorem C10_status_case_and_missing_witness :
    ((pollsC10 0).status = some "Succeeded" →
      v32Loop pollsC10 0 1 = ⟨.ok (v32ExtractText (pollsC10 0)), 1, 1⟩) ∧
    ((pollsC10 0).status = none → v32Loop pollsC10 0 1 = v32Loop pollsC10 1 0) :=
  C10_status_case_and_missing pollsC10 0 0 rfl

end AlticoTranscribe
